import Mathlib

/-!
Shallow embedding of the Donther e-bike simulations:
`src/battery_simulation.py` (discrete-time battery state-of-charge loop) and
`src/BLDC_motor_simulation.py` (back-EMF, BLDC state derivative, rectifier).

The battery loop uses only field arithmetic, `min`/`max` and a truncating
step count, so it is embedded polymorphically over a linear ordered field
(`ℚ` instantiations are fully executable; `ℝ` instantiations are used where
the source mixes in `sin`).  The numpy arrays become Lean lists; the Python
`regen_power_profile[i]` access becomes `List.getD i 0`, which agrees with
the source whenever the profile has at least `steps` entries (the situation
all claims restrict to).
-/

namespace Donther

/-- Embedding of `np.linspace a b n` with the default `endpoint=True`: `n` evenly spaced
samples over the closed interval `[a, b]`, i.e. `a + (b - a) * i / (n - 1)`.
For `n = 1` the division by zero yields `a`, matching numpy's `[a]`. -/
def linspace {α : Type*} [DivisionRing α] (a b : α) (n : ℕ) : List α :=
  (List.range n).map (fun i : ℕ => a + (b - a) * (i : α) / ((n : α) - 1))

/-- Embedding of `steps = int(total_time_sec / dt_sec)`; Python `int()` truncates toward
zero; for the nonnegative quotients of interest this is the floor. -/
def numSteps {α : Type*} [LinearOrderedField α] [FloorRing α]
    (total_time_sec dt_sec : α) : ℕ :=
  (⌊total_time_sec / dt_sec⌋).toNat

/-- The body of the `for i in range(steps)` loop of
`simulate_battery_scenario`, threading the running `soc_wh` and collecting
the `soc_history_wh` and `net_power_profile` lists.  `i` is the loop index,
the second argument the number of iterations left. -/
def simLoop {α : Type*} [LinearOrderedField α] (battery_capacity_wh dt_sec : α)
    (regen solar cons : ℕ → α) : ℕ → ℕ → α → List α × List α
  | _, 0, _ => ([], [])
  | i, n + 1, soc_wh =>
    let regen_w := regen i
    let solar_w := solar i
    let consumption_w := cons i
    let energy_in_wh := (regen_w + solar_w) * (dt_sec / 3600)
    let energy_out_wh := consumption_w * (dt_sec / 3600)
    let net_energy_change_wh := energy_in_wh - energy_out_wh
    let soc_wh' := min (max (soc_wh + net_energy_change_wh) 0) battery_capacity_wh
    let rest := simLoop battery_capacity_wh dt_sec regen solar cons (i + 1) n soc_wh'
    (soc_wh' :: rest.1, (regen_w + solar_w - consumption_w) :: rest.2)

/-- The five return values of `simulate_battery_scenario`, in order. -/
structure BatterySimResult (α : Type*) where
  time_minutes : List α
  soc_history_kwh : List α
  regen_power_profile : List α
  solar_power_profile : List α
  net_power_profile : List α

/-- Embedding of `simulate_battery_scenario` from `src/battery_simulation.py`, for a
supplied (non-`None`) regen profile.  Mirrors the source: capacity converted
to Wh, initial SOC from the percentage, `steps = int(total/dt)`, constant
solar and consumption profiles of length `steps`, the clamped accumulation
loop, SOC history divided by 1000, time axis `arange(steps) * dt / 60`. -/
def simulate_battery_scenario {α : Type*} [LinearOrderedField α] [FloorRing α]
    (battery_capacity_kwh initial_soc_percent total_time_sec dt_sec : α)
    (regen_power_profile : List α) (solar_power_w consumption_power_w : α) :
    BatterySimResult α :=
  let battery_capacity_wh := battery_capacity_kwh * 1000
  let soc_wh := (initial_soc_percent / 100) * battery_capacity_wh
  let steps := numSteps total_time_sec dt_sec
  let solar_power_profile := List.replicate steps solar_power_w
  let consumption_power_profile := List.replicate steps consumption_power_w
  let res := simLoop battery_capacity_wh dt_sec
      (fun i => regen_power_profile.getD i 0)
      (fun i => solar_power_profile.getD i 0)
      (fun i => consumption_power_profile.getD i 0) 0 steps soc_wh
  { time_minutes := (List.range steps).map (fun i : ℕ => (i : α) * dt_sec / 60)
    soc_history_kwh := res.1.map (fun x => x / 1000)
    regen_power_profile := regen_power_profile
    solar_power_profile := solar_power_profile
    net_power_profile := res.2 }

/-- The synthesized regen profile used when `regen_power_profile is None`:
`75 * (1 + np.sin(2 * np.pi * time_array / 600))` over
`time_array = np.linspace(0, total_time_sec, steps)`. -/
noncomputable def regen_profile_default (total_time_sec : ℝ) (steps : ℕ) :
    List ℝ :=
  (linspace 0 total_time_sec steps).map
    (fun t => 75 * (1 + Real.sin (2 * Real.pi * t / 600)))

/-- Embedding of `simulate_battery_scenario` including the `None` default for the regen
profile, at real scalars (the synthesized profile involves `sin`). -/
noncomputable def simulate_battery_scenario_opt
    (battery_capacity_kwh initial_soc_percent total_time_sec dt_sec : ℝ)
    (regen_opt : Option (List ℝ)) (solar_power_w consumption_power_w : ℝ) :
    BatterySimResult ℝ :=
  let steps := numSteps total_time_sec dt_sec
  let regen := match regen_opt with
    | some p => p
    | none => regen_profile_default total_time_sec steps
  simulate_battery_scenario battery_capacity_kwh initial_soc_percent
    total_time_sec dt_sec regen solar_power_w consumption_power_w

/-- One iteration of the loop body on the running SOC: add the net energy
change, then `soc_wh = min(max(soc_wh, 0), battery_capacity_wh)`.
Definitionally equal to the update performed inside `simLoop`. -/
def socStep {α : Type*} [LinearOrderedField α] (battery_capacity_wh dt_sec : α)
    (soc_wh regen_w solar_w consumption_w : α) : α :=
  min (max (soc_wh + ((regen_w + solar_w) * (dt_sec / 3600) -
      consumption_w * (dt_sec / 3600))) 0) battery_capacity_wh

/-- The SOC (in Wh) after `k` iterations of the loop, starting at loop
index `i` with running value `soc_wh`.  Characterizes the entries of the
`soc_history_wh` list built by `simLoop`. -/
def socIterFrom {α : Type*} [LinearOrderedField α] (battery_capacity_wh dt_sec : α)
    (regen solar cons : ℕ → α) (i : ℕ) (soc_wh : α) : ℕ → α
  | 0 => soc_wh
  | k + 1 => socStep battery_capacity_wh dt_sec
      (socIterFrom battery_capacity_wh dt_sec regen solar cons i soc_wh k)
      (regen (i + k)) (solar (i + k)) (cons (i + k))

/-- The SOC recurrence written from the specification's words (§4.2
simulation loop): `SOC_0 = (initial_SOC_percent/100) × capacity_kWh × 1000`
and `SOC_i = clamp(SOC_{i-1} + (regen_W[i] + solar_W[i]) × (step_s/3600)
− consumption_W × (step_s/3600), 0, capacity_kWh × 1000)`, with constant
solar and consumption.  Used to state the refinement claim about the
simulation loop; to be compared with `simulate_battery_scenario`. -/
def socSpecWh {α : Type*} [LinearOrderedField α]
    (battery_capacity_kwh initial_soc_percent dt_sec : α)
    (regen : List α) (solar_w consumption_w : α) : ℕ → α
  | 0 => (initial_soc_percent / 100) * battery_capacity_kwh * 1000
  | i + 1 =>
      min (max (socSpecWh battery_capacity_kwh initial_soc_percent dt_sec
            regen solar_w consumption_w i
          + (regen.getD i 0 + solar_w) * (dt_sec / 3600)
          - consumption_w * (dt_sec / 3600)) 0)
        (battery_capacity_kwh * 1000)

/-! Parameters of `src/BLDC_motor_simulation.py` (the M1 motor setup). -/

/-- Source constant `rotor_inertia = 0.004` kg·m². -/
def rotor_inertia : ℝ := 0.004

/-- Source constant `num_poles = 12`. -/
def num_poles : ℝ := 12

/-- Source constant `resistance = 0.08` Ω. -/
def resistance : ℝ := 0.08

/-- Source constant `inductance = 0.0003` H. -/
def inductance : ℝ := 0.0003

/-- Source constant `emf_constant = 0.12` V/(rad/s). -/
def emf_constant : ℝ := 0.12

/-- Source constant `load_torque = 0.03` N·m. -/
def load_torque : ℝ := 0.03

/-- Embedding of `back_emf` from `src/BLDC_motor_simulation.py`:
`theta = speed * np.linspace(0, 1, 3) * num_poles` and
`emf = emf_constant * np.sin(theta + np.array([0, -2π/3, 2π/3]))`,
with numpy's elementwise broadcasting rendered as `map`/`zipWith`. -/
noncomputable def back_emf (speed : ℝ) : List ℝ :=
  let theta := (linspace (0 : ℝ) 1 3).map (fun v => speed * v * num_poles)
  List.zipWith (fun th off => emf_constant * Real.sin (th + off)) theta
    [0, -(2 * Real.pi) / 3, 2 * Real.pi / 3]

/-- Embedding of `bldc_gen_model` from `src/BLDC_motor_simulation.py`: the state vector is
`y = [speed, ia, ib, ic]`; `torque = np.dot(currents, emf)`;
`d_speed_dt = (torque - load_torque) / rotor_inertia`;
`d_currents_dt = (emf - resistance * currents) / inductance`;
the result is `[d_speed_dt] + list(d_currents_dt)`. -/
noncomputable def bldc_gen_model (_t : ℝ) (y : List ℝ) : List ℝ :=
  let speed := y.getD 0 0
  let currents := y.drop 1
  let emf := back_emf speed
  let torque := (List.zipWith (· * ·) currents emf).sum
  let d_speed_dt := (torque - load_torque) / rotor_inertia
  let d_currents_dt :=
    List.zipWith (fun e c => (e - resistance * c) / inductance) emf currents
  d_speed_dt :: d_currents_dt

/-- Embedding of `rectify_dc` from `src/BLDC_motor_simulation.py`:
`(np.maximum(ia, 0) + np.maximum(ib, 0) + np.maximum(ic, 0)) / 3`,
elementwise over the three phase-current samples. -/
noncomputable def rectify_dc (ia ib ic : List ℝ) : List ℝ :=
  (List.zipWith (fun a b => a + b)
      (List.zipWith (fun a b => a + b)
        (ia.map (fun x => max x 0)) (ib.map (fun x => max x 0)))
      (ic.map (fun x => max x 0))).map (fun x => x / 3)

/-! Helpers for list access. -/

theorem getD_replicate_of_lt {α : Type*} {n i : ℕ} (x d : α) (h : i < n) :
    (List.replicate n x).getD i d = x := by
  rw [List.getD_eq_getElem _ _ (by simpa using h)]
  simp

theorem getD_map_of_lt {α β : Type*} (f : α → β) (l : List α) {i : ℕ}
    (h : i < l.length) (d : β) (d' : α) :
    (l.map f).getD i d = f (l.getD i d') := by
  rw [List.getD_eq_getElem _ _ (by simpa using h), List.getD_eq_getElem _ _ h]
  simp

theorem getD_range_map {α : Type*} {n i : ℕ} (h : i < n) (f : ℕ → α) (d : α) :
    ((List.range n).map f).getD i d = f i := by
  rw [List.getD_eq_getElem _ _ (by simpa using h)]
  simp

/-! Structure of the simulation loop. -/

section LoopLemmas

variable {α : Type*} [LinearOrderedField α]

theorem simLoop_fst_length (cap dt : α) (r s c : ℕ → α) :
    ∀ (n i : ℕ) (soc : α), ((simLoop cap dt r s c i n soc).1).length = n := by
  intro n
  induction n with
  | zero => intro i soc; rfl
  | succ n ih => intro i soc; simp [simLoop, ih]

theorem simLoop_snd_length (cap dt : α) (r s c : ℕ → α) :
    ∀ (n i : ℕ) (soc : α), ((simLoop cap dt r s c i n soc).2).length = n := by
  intro n
  induction n with
  | zero => intro i soc; rfl
  | succ n ih => intro i soc; simp [simLoop, ih]

/-- Each recorded net power is `regen + solar − consumption` at the loop
index, independently of the running (possibly clamped) SOC. -/
theorem simLoop_snd_getD (cap dt : α) (r s c : ℕ → α) :
    ∀ (n i : ℕ) (soc : α) (j : ℕ), j < n →
      ((simLoop cap dt r s c i n soc).2).getD j 0 = r (i + j) + s (i + j) - c (i + j) := by
  intro n
  induction n with
  | zero => intro i soc j hj; omega
  | succ n ih =>
    intro i soc j hj
    match j with
    | 0 => simp [simLoop]
    | j + 1 =>
      have hj' : j < n := by omega
      have hidx : i + 1 + j = i + (j + 1) := by omega
      simp only [simLoop, List.getD_cons_succ]
      rw [ih (i + 1) _ j hj', hidx]

/-- Unfolding `socIterFrom` from the front: one step at index `i`, then the
remaining steps starting from index `i + 1`. -/
theorem socIterFrom_front (cap dt : α) (r s c : ℕ → α) (i : ℕ) (soc : α) :
    ∀ k : ℕ, socIterFrom cap dt r s c i soc (k + 1) =
      socIterFrom cap dt r s c (i + 1) (socStep cap dt soc (r i) (s i) (c i)) k := by
  intro k
  induction k with
  | zero => simp [socIterFrom]
  | succ k ih =>
    have hidx : i + 1 + k = i + (k + 1) := by omega
    calc socIterFrom cap dt r s c i soc (k + 1 + 1)
        = socStep cap dt (socIterFrom cap dt r s c i soc (k + 1))
            (r (i + (k + 1))) (s (i + (k + 1))) (c (i + (k + 1))) := rfl
      _ = socStep cap dt
            (socIterFrom cap dt r s c (i + 1) (socStep cap dt soc (r i) (s i) (c i)) k)
            (r (i + 1 + k)) (s (i + 1 + k)) (c (i + 1 + k)) := by rw [ih, hidx]
      _ = socIterFrom cap dt r s c (i + 1) (socStep cap dt soc (r i) (s i) (c i))
            (k + 1) := rfl

/-- Characterization: the `j`-th entry of `soc_history_wh` is the SOC after `j + 1` loop
iterations. -/
theorem simLoop_fst_getD (cap dt : α) (r s c : ℕ → α) :
    ∀ (n i : ℕ) (soc : α) (j : ℕ), j < n →
      ((simLoop cap dt r s c i n soc).1).getD j 0 =
        socIterFrom cap dt r s c i soc (j + 1) := by
  intro n
  induction n with
  | zero => intro i soc j hj; omega
  | succ n ih =>
    intro i soc j hj
    match j with
    | 0 => simp [simLoop, socIterFrom, socStep]
    | j + 1 =>
      have hj' : j < n := by omega
      simp only [simLoop, List.getD_cons_succ]
      rw [ih (i + 1) _ j hj']
      conv_rhs => rw [socIterFrom_front]
      simp [socStep]

/-- Independence: the `net_power_profile` list built by the loop depends neither on the
battery capacity nor on the running SOC. -/
theorem simLoop_snd_ignore (cap cap' dt : α) (r s c : ℕ → α) :
    ∀ (n i : ℕ) (soc soc' : α),
      (simLoop cap dt r s c i n soc).2 = (simLoop cap' dt r s c i n soc').2 := by
  intro n
  induction n with
  | zero => intro i soc soc'; rfl
  | succ n ih =>
    intro i soc soc'
    simp only [simLoop]
    exact congrArg (List.cons _) (ih (i + 1) _ _)

/-- Every entry of `soc_history_wh` lies in `[0, battery_capacity_wh]`:
it is the output of the clamp. -/
theorem simLoop_fst_mem_bounds (cap dt : α) (r s c : ℕ → α) (hcap : 0 ≤ cap) :
    ∀ (n i : ℕ) (soc : α), ∀ x ∈ (simLoop cap dt r s c i n soc).1,
      0 ≤ x ∧ x ≤ cap := by
  intro n
  induction n with
  | zero => intro i soc x hx; simp [simLoop] at hx
  | succ n ih =>
    intro i soc x hx
    simp only [simLoop, List.mem_cons] at hx
    rcases hx with hx | hx
    · subst hx
      refine ⟨le_min (le_max_right _ _) hcap, min_le_right _ _⟩
    · exact ih (i + 1) _ x hx

end LoopLemmas

/-! Unfolding the fields of `simulate_battery_scenario`. -/

section SimFields

variable {α : Type*} [LinearOrderedField α] [FloorRing α]
variable (cap init total dt : α) (regen : List α) (solar cons : α)

theorem sim_regen_eq :
    (simulate_battery_scenario cap init total dt regen solar cons).regen_power_profile
      = regen := rfl

theorem sim_solar_eq :
    (simulate_battery_scenario cap init total dt regen solar cons).solar_power_profile
      = List.replicate (numSteps total dt) solar := rfl

theorem sim_time_eq :
    (simulate_battery_scenario cap init total dt regen solar cons).time_minutes
      = (List.range (numSteps total dt)).map (fun i : ℕ => (i : α) * dt / 60) := rfl

theorem sim_net_eq :
    (simulate_battery_scenario cap init total dt regen solar cons).net_power_profile
      = (simLoop (cap * 1000) dt (fun j => regen.getD j 0)
          (fun j => (List.replicate (numSteps total dt) solar).getD j 0)
          (fun j => (List.replicate (numSteps total dt) cons).getD j 0)
          0 (numSteps total dt) ((init / 100) * (cap * 1000))).2 := rfl

theorem sim_soc_eq :
    (simulate_battery_scenario cap init total dt regen solar cons).soc_history_kwh
      = ((simLoop (cap * 1000) dt (fun j => regen.getD j 0)
          (fun j => (List.replicate (numSteps total dt) solar).getD j 0)
          (fun j => (List.replicate (numSteps total dt) cons).getD j 0)
          0 (numSteps total dt) ((init / 100) * (cap * 1000))).1).map
            (fun x => x / 1000) := rfl

theorem sim_soc_length :
    ((simulate_battery_scenario cap init total dt regen solar cons).soc_history_kwh).length
      = numSteps total dt := by
  rw [sim_soc_eq, List.length_map, simLoop_fst_length]

/-- Characterization: the `i`-th recorded SOC value in kWh, as the `(i+1)`-fold iterate of the
clamped update, divided by 1000. -/
theorem sim_soc_getD {i : ℕ} (hi : i < numSteps total dt) :
    ((simulate_battery_scenario cap init total dt regen solar cons).soc_history_kwh).getD i 0
      = socIterFrom (cap * 1000) dt (fun j => regen.getD j 0)
          (fun j => (List.replicate (numSteps total dt) solar).getD j 0)
          (fun j => (List.replicate (numSteps total dt) cons).getD j 0)
          0 ((init / 100) * (cap * 1000)) (i + 1) / 1000 := by
  rw [sim_soc_eq]
  rw [getD_map_of_lt _ _ (by rw [simLoop_fst_length]; exact hi) 0 0]
  rw [simLoop_fst_getD _ _ _ _ _ _ _ _ _ hi]

end SimFields

/-! Claims about the battery simulation. -/

/-- C1: claim. For every valid configuration of `simulate_battery_scenario`
(`battery_capacity_kwh > 0`, `0 ≤ initial_soc_percent ≤ 100`, `dt_sec > 0`,
a positive step count, and a regen profile with at least `steps` entries),
every element of the returned `soc_history_kwh` satisfies
`0 ≤ soc_history_kwh[i] ≤ battery_capacity_kwh`. -/
theorem soc_history_within_capacity {α : Type*} [LinearOrderedField α] [FloorRing α]
    (battery_capacity_kwh initial_soc_percent total_time_sec dt_sec : α)
    (regen_power_profile : List α) (solar_power_w consumption_power_w : α)
    (hcap : 0 < battery_capacity_kwh)
    (hinit0 : 0 ≤ initial_soc_percent) (hinit1 : initial_soc_percent ≤ 100)
    (hdt : 0 < dt_sec)
    (hN : 0 < numSteps total_time_sec dt_sec)
    (hlen : numSteps total_time_sec dt_sec ≤ regen_power_profile.length)
    (i : ℕ)
    (hi : i < ((simulate_battery_scenario battery_capacity_kwh initial_soc_percent
        total_time_sec dt_sec regen_power_profile solar_power_w
        consumption_power_w).soc_history_kwh).length) :
    0 ≤ ((simulate_battery_scenario battery_capacity_kwh initial_soc_percent
        total_time_sec dt_sec regen_power_profile solar_power_w
        consumption_power_w).soc_history_kwh).getD i 0 ∧
      ((simulate_battery_scenario battery_capacity_kwh initial_soc_percent
        total_time_sec dt_sec regen_power_profile solar_power_w
        consumption_power_w).soc_history_kwh).getD i 0 ≤ battery_capacity_kwh := by
  have h1000 : (0 : α) < 1000 := by norm_num
  have hcapw : (0 : α) ≤ battery_capacity_kwh * 1000 := by positivity
  rw [sim_soc_eq] at hi ⊢
  rw [List.length_map] at hi
  rw [getD_map_of_lt _ _ hi 0 0]
  have hmem := List.getD_eq_getElem _ (0 : α) hi
  rw [hmem]
  obtain ⟨h0, hle⟩ := simLoop_fst_mem_bounds _ _ _ _ _ hcapw _ _ _ _
    (List.getElem_mem hi)
  exact ⟨div_nonneg h0 h1000.le, (div_le_iff₀ h1000).mpr hle⟩

/-- Witness for C1: the concrete configuration `capacity = 8 kWh`,
`initial SOC = 100 %`, `2` steps of `1` s, zero regen, over `ℚ`. -/
theorem soc_history_within_capacity_witness :
    (0 : ℚ) < 8 ∧ (0 : ℚ) ≤ 100 ∧ (100 : ℚ) ≤ 100 ∧ (0 : ℚ) < 1 ∧
      0 < numSteps (2 : ℚ) 1 ∧ numSteps (2 : ℚ) 1 ≤ ([0, 0] : List ℚ).length ∧
      0 < ((simulate_battery_scenario (8 : ℚ) 100 2 1 [0, 0] 50
        500).soc_history_kwh).length ∧
      (0 ≤ ((simulate_battery_scenario (8 : ℚ) 100 2 1 [0, 0] 50
          500).soc_history_kwh).getD 0 0 ∧
        ((simulate_battery_scenario (8 : ℚ) 100 2 1 [0, 0] 50
          500).soc_history_kwh).getD 0 0 ≤ 8) :=
  ⟨by decide, by decide, le_refl _, by decide, by simp [numSteps], by simp [numSteps],
    by simp [sim_soc_length, numSteps],
    soc_history_within_capacity 8 100 2 1 [0, 0] 50 500 (by decide) (by decide)
      (le_refl _) (by decide) (by simp [numSteps]) (by simp [numSteps]) 0
      (by simp [sim_soc_length, numSteps])⟩

/-- C7: claim. For every valid configuration and every step `i < steps`, the
`i`-th element of the returned `net_power_profile` equals
`regen[i] + solar − consumption` exactly; the recorded net power is
unaffected by the SOC clamp. -/
theorem net_power_profile_unclamped {α : Type*} [LinearOrderedField α] [FloorRing α]
    (battery_capacity_kwh initial_soc_percent total_time_sec dt_sec : α)
    (regen_power_profile : List α) (solar_power_w consumption_power_w : α)
    (hcap : 0 < battery_capacity_kwh)
    (hinit0 : 0 ≤ initial_soc_percent) (hinit1 : initial_soc_percent ≤ 100)
    (hdt : 0 < dt_sec)
    (hlen : numSteps total_time_sec dt_sec ≤ regen_power_profile.length)
    (i : ℕ) (hi : i < numSteps total_time_sec dt_sec) :
    ((simulate_battery_scenario battery_capacity_kwh initial_soc_percent
        total_time_sec dt_sec regen_power_profile solar_power_w
        consumption_power_w).net_power_profile).getD i 0
      = regen_power_profile.getD i 0 + solar_power_w - consumption_power_w := by
  rw [sim_net_eq]
  rw [simLoop_snd_getD _ _ _ _ _ _ _ _ _ hi]
  simp only [Nat.zero_add]
  rw [getD_replicate_of_lt _ _ hi, getD_replicate_of_lt _ _ hi]

/-- Witness for C7: a two-step run over `ℚ` with regen profile `[3, 4]`. -/
theorem net_power_profile_unclamped_witness :
    (0 : ℚ) < 8 ∧ (0 : ℚ) ≤ 100 ∧ (100 : ℚ) ≤ 100 ∧ (0 : ℚ) < 1 ∧
      numSteps (2 : ℚ) 1 ≤ ([3, 4] : List ℚ).length ∧ 0 < numSteps (2 : ℚ) 1 ∧
      ((simulate_battery_scenario (8 : ℚ) 100 2 1 [3, 4] 50
          500).net_power_profile).getD 0 0
        = ([3, 4] : List ℚ).getD 0 0 + 50 - 500 :=
  ⟨by decide, by decide, le_refl _, by decide, by simp [numSteps],
    by simp [numSteps],
    net_power_profile_unclamped 8 100 2 1 [3, 4] 50 500 (by decide) (by decide)
      (le_refl _) (by decide) (by simp [numSteps]) 0 (by simp [numSteps])⟩

/-- C9: claim. The four constructed outputs all have exactly
`steps = int(total_time_sec / dt_sec)` elements, `time_minutes[i] = i·dt/60`,
and a supplied regen profile is returned unchanged (even if longer than
`steps`). -/
theorem outputs_lengths_time_axis {α : Type*} [LinearOrderedField α] [FloorRing α]
    (battery_capacity_kwh initial_soc_percent total_time_sec dt_sec : α)
    (regen_power_profile : List α) (solar_power_w consumption_power_w : α)
    (hdt : 0 < dt_sec)
    (hlen : numSteps total_time_sec dt_sec ≤ regen_power_profile.length) :
    (((simulate_battery_scenario battery_capacity_kwh initial_soc_percent
          total_time_sec dt_sec regen_power_profile solar_power_w
          consumption_power_w).time_minutes).length = numSteps total_time_sec dt_sec ∧
      ((simulate_battery_scenario battery_capacity_kwh initial_soc_percent
          total_time_sec dt_sec regen_power_profile solar_power_w
          consumption_power_w).soc_history_kwh).length = numSteps total_time_sec dt_sec ∧
      ((simulate_battery_scenario battery_capacity_kwh initial_soc_percent
          total_time_sec dt_sec regen_power_profile solar_power_w
          consumption_power_w).solar_power_profile).length = numSteps total_time_sec dt_sec ∧
      ((simulate_battery_scenario battery_capacity_kwh initial_soc_percent
          total_time_sec dt_sec regen_power_profile solar_power_w
          consumption_power_w).net_power_profile).length = numSteps total_time_sec dt_sec) ∧
    (∀ i, i < numSteps total_time_sec dt_sec →
      ((simulate_battery_scenario battery_capacity_kwh initial_soc_percent
          total_time_sec dt_sec regen_power_profile solar_power_w
          consumption_power_w).time_minutes).getD i 0 = (i : α) * dt_sec / 60) ∧
    (simulate_battery_scenario battery_capacity_kwh initial_soc_percent
        total_time_sec dt_sec regen_power_profile solar_power_w
        consumption_power_w).regen_power_profile = regen_power_profile := by
  refine ⟨⟨?_, ?_, ?_, ?_⟩, ?_, rfl⟩
  · rw [sim_time_eq, List.length_map, List.length_range]
  · exact sim_soc_length _ _ _ _ _ _ _
  · rw [sim_solar_eq, List.length_replicate]
  · rw [sim_net_eq, simLoop_snd_length]
  · intro i hi
    rw [sim_time_eq, getD_range_map hi]

/-- Witness for C9: a two-step run over `ℚ`, evaluating the time axis at
index 1. -/
theorem outputs_lengths_time_axis_witness :
    (0 : ℚ) < 1 ∧ numSteps (2 : ℚ) 1 ≤ ([3, 4, 5] : List ℚ).length ∧
      1 < numSteps (2 : ℚ) 1 ∧
      ((simulate_battery_scenario (8 : ℚ) 100 2 1 [3, 4, 5] 50
          500).time_minutes).getD 1 0 = ((1 : ℕ) : ℚ) * 1 / 60 :=
  ⟨by decide, by simp [numSteps], by simp [numSteps],
    (outputs_lengths_time_axis 8 100 2 1 [3, 4, 5] 50 500 (by decide)
      (by simp [numSteps])).2.1 1 (by simp [numSteps])⟩

/-- C10: claim. Two runs that differ only in `battery_capacity_kwh` and
`initial_soc_percent` return identical `time_minutes`,
`regen_power_profile`, `solar_power_profile` and `net_power_profile`: the
power outputs do not depend on capacity or initial state of charge. -/
theorem power_outputs_ignore_capacity_soc {α : Type*} [LinearOrderedField α]
    [FloorRing α] (cap cap' init init' total_time_sec dt_sec : α)
    (regen_power_profile : List α) (solar_power_w consumption_power_w : α) :
    (simulate_battery_scenario cap init total_time_sec dt_sec
        regen_power_profile solar_power_w consumption_power_w).time_minutes
      = (simulate_battery_scenario cap' init' total_time_sec dt_sec
        regen_power_profile solar_power_w consumption_power_w).time_minutes ∧
    (simulate_battery_scenario cap init total_time_sec dt_sec
        regen_power_profile solar_power_w consumption_power_w).regen_power_profile
      = (simulate_battery_scenario cap' init' total_time_sec dt_sec
        regen_power_profile solar_power_w consumption_power_w).regen_power_profile ∧
    (simulate_battery_scenario cap init total_time_sec dt_sec
        regen_power_profile solar_power_w consumption_power_w).solar_power_profile
      = (simulate_battery_scenario cap' init' total_time_sec dt_sec
        regen_power_profile solar_power_w consumption_power_w).solar_power_profile ∧
    (simulate_battery_scenario cap init total_time_sec dt_sec
        regen_power_profile solar_power_w consumption_power_w).net_power_profile
      = (simulate_battery_scenario cap' init' total_time_sec dt_sec
        regen_power_profile solar_power_w consumption_power_w).net_power_profile := by
  refine ⟨rfl, rfl, rfl, ?_⟩
  rw [sim_net_eq, sim_net_eq]
  exact simLoop_snd_ignore _ _ _ _ _ _ _ _ _ _

/-- The iterated clamped update of the code coincides, step for step, with
the recurrence written from the specification's words. -/
theorem socIterFrom_eq_specWh {α : Type*} [LinearOrderedField α] [FloorRing α]
    (battery_capacity_kwh initial_soc_percent total_time_sec dt_sec : α)
    (regen_power_profile : List α) (solar_power_w consumption_power_w : α) :
    ∀ k, k ≤ numSteps total_time_sec dt_sec →
      socIterFrom (battery_capacity_kwh * 1000) dt_sec
        (fun j => regen_power_profile.getD j 0)
        (fun j => (List.replicate (numSteps total_time_sec dt_sec) solar_power_w).getD j 0)
        (fun j => (List.replicate (numSteps total_time_sec dt_sec) consumption_power_w).getD j 0)
        0 ((initial_soc_percent / 100) * (battery_capacity_kwh * 1000)) k
      = socSpecWh battery_capacity_kwh initial_soc_percent dt_sec
          regen_power_profile solar_power_w consumption_power_w k := by
  intro k
  induction k with
  | zero => intro _; simp [socIterFrom, socSpecWh, mul_assoc]
  | succ k ih =>
    intro hk
    have hkN : k < numSteps total_time_sec dt_sec := by omega
    simp only [socIterFrom, socSpecWh, socStep, Nat.zero_add]
    rw [ih (by omega), getD_replicate_of_lt _ _ hkN, getD_replicate_of_lt _ _ hkN,
      ← add_sub_assoc]

/-- C2: claim. For every valid configuration, the battery simulation starts
from `SOC_Wh = (initial_soc_percent/100) × capacity × 1000` and each
recorded SOC (in kWh) is the Wh value of the specification recurrence
`SOC_i = clamp(SOC_{i-1} + (regen[i] + solar) × dt/3600 − cons × dt/3600,
0, capacity × 1000)` divided by 1000. -/
theorem soc_history_matches_spec_recurrence {α : Type*} [LinearOrderedField α]
    [FloorRing α]
    (battery_capacity_kwh initial_soc_percent total_time_sec dt_sec : α)
    (regen_power_profile : List α) (solar_power_w consumption_power_w : α)
    (hcap : 0 < battery_capacity_kwh)
    (hinit0 : 0 ≤ initial_soc_percent) (hinit1 : initial_soc_percent ≤ 100)
    (hdt : 0 < dt_sec)
    (hlen : numSteps total_time_sec dt_sec ≤ regen_power_profile.length)
    (i : ℕ) (hi : i < numSteps total_time_sec dt_sec) :
    ((simulate_battery_scenario battery_capacity_kwh initial_soc_percent
        total_time_sec dt_sec regen_power_profile solar_power_w
        consumption_power_w).soc_history_kwh).getD i 0
      = socSpecWh battery_capacity_kwh initial_soc_percent dt_sec
          regen_power_profile solar_power_w consumption_power_w (i + 1) / 1000 := by
  rw [sim_soc_getD _ _ _ _ _ _ _ hi]
  rw [socIterFrom_eq_specWh _ _ _ _ _ _ _ (i + 1) (by omega)]

/-- Witness for C2: a two-step run over `ℚ` with initial SOC 50 %. -/
theorem soc_history_matches_spec_recurrence_witness :
    (0 : ℚ) < 8 ∧ (0 : ℚ) ≤ 50 ∧ (50 : ℚ) ≤ 100 ∧ (0 : ℚ) < 1 ∧
      numSteps (2 : ℚ) 1 ≤ ([10, 20] : List ℚ).length ∧ 0 < numSteps (2 : ℚ) 1 ∧
      ((simulate_battery_scenario (8 : ℚ) 50 2 1 [10, 20] 50
          500).soc_history_kwh).getD 0 0
        = socSpecWh (8 : ℚ) 50 1 [10, 20] 50 500 1 / 1000 :=
  ⟨by decide, by decide, by decide, by decide, by simp [numSteps],
    by simp [numSteps],
    soc_history_matches_spec_recurrence 8 50 2 1 [10, 20] 50 500 (by decide)
      (by decide) (by decide) (by decide) (by simp [numSteps]) 0
      (by simp [numSteps])⟩

/-- C6: claim. With exact arithmetic, for `capacity = 8 kWh`,
`initial SOC = 100 %`, `solar = 75 W`, `consumption = 450 W`, `regen = 0`,
`duration = 3600 s`, `step = 1 s`: the recorded net power is `−375 W` at
every one of the 3600 steps, the final recorded SOC is `7.625 kWh`, and the
clamp never activates (every recorded SOC is strictly between 0 and 8 kWh).
Stated over `ℚ`, i.e. with exact arithmetic. -/
theorem scenario_constant_drain_exact :
    (∀ i, i < 3600 →
      ((simulate_battery_scenario (8 : ℚ) 100 3600 1 (List.replicate 3600 0) 75
          450).net_power_profile).getD i 0 = -375) ∧
    ((simulate_battery_scenario (8 : ℚ) 100 3600 1 (List.replicate 3600 0) 75
        450).soc_history_kwh).getD 3599 0 = 7.625 ∧
    (∀ i, i < 3600 →
      0 < ((simulate_battery_scenario (8 : ℚ) 100 3600 1 (List.replicate 3600 0)
          75 450).soc_history_kwh).getD i 0 ∧
        ((simulate_battery_scenario (8 : ℚ) 100 3600 1 (List.replicate 3600 0)
          75 450).soc_history_kwh).getD i 0 < 8) := by
  have hN : numSteps (3600 : ℚ) 1 = 3600 := by simp [numSteps]
  have key : ∀ k, k ≤ 3600 →
      socIterFrom ((8 : ℚ) * 1000) 1
        (fun j => (List.replicate 3600 (0 : ℚ)).getD j 0)
        (fun j => (List.replicate (numSteps (3600 : ℚ) 1) (75 : ℚ)).getD j 0)
        (fun j => (List.replicate (numSteps (3600 : ℚ) 1) (450 : ℚ)).getD j 0)
        0 ((100 / 100) * ((8 : ℚ) * 1000)) k
      = 8000 - 5 * (k : ℚ) / 48 := by
    intro k
    induction k with
    | zero => intro _; norm_num [socIterFrom]
    | succ k ih =>
      intro hk
      have hkq : (k : ℚ) ≤ 3599 := by exact_mod_cast (by omega : k ≤ 3599)
      have hkq0 : (0 : ℚ) ≤ (k : ℚ) := Nat.cast_nonneg k
      have hk3600 : k < 3600 := by omega
      simp only [socIterFrom, socStep, Nat.zero_add]
      rw [ih (by omega), getD_replicate_of_lt _ _ hk3600,
        getD_replicate_of_lt _ _ (by rw [hN]; exact hk3600),
        getD_replicate_of_lt _ _ (by rw [hN]; exact hk3600)]
      push_cast
      have h1 : (8000 - 5 * (k : ℚ) / 48) +
          (((0 : ℚ) + 75) * ((1 : ℚ) / 3600) - (450 : ℚ) * ((1 : ℚ) / 3600))
          = 8000 - 5 * ((k : ℚ) + 1) / 48 := by ring
      rw [h1, max_eq_left (by linarith), min_eq_left (by linarith)]
  refine ⟨?_, ?_, ?_⟩
  · intro i hi
    rw [sim_net_eq, simLoop_snd_getD _ _ _ _ _ _ _ _ _ (by rw [hN]; exact hi)]
    simp only [Nat.zero_add]
    rw [getD_replicate_of_lt _ _ hi,
      getD_replicate_of_lt _ _ (by rw [hN]; exact hi),
      getD_replicate_of_lt _ _ (by rw [hN]; exact hi)]
    norm_num
  · rw [sim_soc_getD _ _ _ _ _ _ _ (by rw [hN]; omega)]
    rw [key (3599 + 1) (by omega)]
    norm_num
  · intro i hi
    have hiq : (i : ℚ) ≤ 3599 := by exact_mod_cast (by omega : i ≤ 3599)
    have hiq0 : (0 : ℚ) ≤ (i : ℚ) := Nat.cast_nonneg i
    rw [sim_soc_getD _ _ _ _ _ _ _ (by rw [hN]; exact hi)]
    rw [key (i + 1) (by omega)]
    push_cast
    constructor
    · apply div_pos _ (by norm_num : (0 : ℚ) < 1000)
      linarith
    · rw [div_lt_iff₀ (by norm_num : (0 : ℚ) < 1000)]
      linarith

/-- Witness for C6: the net power at step 0 and the strict SOC bounds at
step 0 of the drain scenario. -/
theorem scenario_constant_drain_exact_witness :
    (0 : ℕ) < 3600 ∧
      ((simulate_battery_scenario (8 : ℚ) 100 3600 1 (List.replicate 3600 0) 75
          450).net_power_profile).getD 0 0 = -375 ∧
      (0 < ((simulate_battery_scenario (8 : ℚ) 100 3600 1 (List.replicate 3600 0)
          75 450).soc_history_kwh).getD 0 0 ∧
        ((simulate_battery_scenario (8 : ℚ) 100 3600 1 (List.replicate 3600 0)
          75 450).soc_history_kwh).getD 0 0 < 8) :=
  ⟨by decide, scenario_constant_drain_exact.1 0 (by decide),
    scenario_constant_drain_exact.2.2 0 (by decide)⟩

/-! The synthesized regen profile (C3). -/

theorem linspace_length {α : Type*} [DivisionRing α] (a b : α) (n : ℕ) :
    (linspace a b n).length = n := by
  simp [linspace]

theorem linspace_getD {α : Type*} [DivisionRing α] (a b : α) {n i : ℕ}
    (h : i < n) (d : α) :
    (linspace a b n).getD i d = a + (b - a) * (i : α) / ((n : α) - 1) :=
  getD_range_map h _ _

theorem regen_profile_default_length (total_time_sec : ℝ) (n : ℕ) :
    (regen_profile_default total_time_sec n).length = n := by
  simp [regen_profile_default, linspace_length]

theorem regen_profile_default_getD (total_time_sec : ℝ) {n i : ℕ} (h : i < n) :
    (regen_profile_default total_time_sec n).getD i 0
      = 75 * (1 + Real.sin (2 * Real.pi *
          (total_time_sec * (i : ℝ) / ((n : ℝ) - 1)) / 600)) := by
  rw [regen_profile_default,
    getD_map_of_lt _ _ (by rw [linspace_length]; exact h) 0 0,
    linspace_getD _ _ h]
  norm_num

/-- C3, counterexample. The synthesized regen profile samples
`np.linspace(0, total_time_sec, steps)` with the endpoint included, not the
half-open interval `[0, total_time_s)` of the claim.  With
`total_time_s = 600` and `steps = 600`: the sample at index 300 — the index
which would correspond to `t = 300 s` under the claimed sampling — sits at
`t = 600·300/599 ≠ 300`, and the profile value there is strictly below the
claimed `75 W` (it is `75(1 − sin(π/599)) ≈ 74.61 W`, not a floating-point
perturbation of 75). -/
theorem regen_profile_default_midpoint_counterexample :
    (linspace (0 : ℝ) 600 600).getD 300 0 ≠ 300 ∧
    (regen_profile_default 600 600).getD 300 0 < 75 := by
  constructor
  · rw [linspace_getD _ _ (by norm_num) 0]
    norm_num
  · rw [regen_profile_default_getD _ (by norm_num)]
    have harg : 2 * Real.pi * ((600 : ℝ) * ((300 : ℕ) : ℝ) / (((600 : ℕ) : ℝ) - 1)) / 600
        = Real.pi + Real.pi / 599 := by
      push_cast
      ring
    rw [harg]
    have hsin : Real.sin (Real.pi + Real.pi / 599) = -Real.sin (Real.pi / 599) := by
      rw [Real.sin_add]
      simp
    have hpos : 0 < Real.sin (Real.pi / 599) :=
      Real.sin_pos_of_pos_of_lt_pi (by positivity)
        (div_lt_self Real.pi_pos (by norm_num))
    rw [hsin]
    linarith

/-- C3, amended. When no regen profile is supplied, the synthesized
profile has one value per step, and its `i`-th value is
`75 × (1 + sin(2π t_i / 600))` at the sample time
`t_i = total_time_s × i / (N − 1)` — the `N` sample times are evenly spaced
over the **closed** interval `[0, total_time_s]` (numpy `linspace` with the
endpoint included), not over the half-open interval; in particular no sample
falls at exactly `t = 300 s` when `total_time_s = 600`, `step = 1`. -/
theorem regen_profile_default_closed_interval (total_time_sec : ℝ) (n : ℕ) :
    (regen_profile_default total_time_sec n).length = n ∧
    ∀ i, i < n → (regen_profile_default total_time_sec n).getD i 0
      = 75 * (1 + Real.sin (2 * Real.pi *
          (total_time_sec * (i : ℝ) / ((n : ℝ) - 1)) / 600)) :=
  ⟨regen_profile_default_length total_time_sec n,
    fun _ hi => regen_profile_default_getD total_time_sec hi⟩

/-- Witness for the amended C3, at `total_time_s = 600`, `N = 600`, `i = 0`. -/
theorem regen_profile_default_closed_interval_witness :
    (0 : ℕ) < 600 ∧
      (regen_profile_default 600 600).getD 0 0
        = 75 * (1 + Real.sin (2 * Real.pi *
            ((600 : ℝ) * ((0 : ℕ) : ℝ) / (((600 : ℕ) : ℝ) - 1)) / 600)) :=
  ⟨by decide, (regen_profile_default_closed_interval 600 600).2 0 (by decide)⟩

/-! The BLDC model (C4, C5, C8). -/

theorem linspace_zero_one_three : linspace (0 : ℝ) 1 3 = [0, 1 / 2, 1] := by
  norm_num [linspace, List.range_succ]

/-- The three components of `back_emf`: the `k`-th phase EMF is
`emf_constant * sin(speed * v_k * num_poles + offset_k)` with
`v = (0, 1/2, 1)` and offsets `(0, −2π/3, +2π/3)`. -/
theorem back_emf_components (s : ℝ) :
    back_emf s = [emf_constant * Real.sin (s * 0 * num_poles + 0),
      emf_constant * Real.sin (s * (1 / 2) * num_poles + -(2 * Real.pi) / 3),
      emf_constant * Real.sin (s * 1 * num_poles + 2 * Real.pi / 3)] := by
  rw [back_emf, linspace_zero_one_three]
  rfl

/-- C4: claim. For every rotor speed `s`, `back_emf s` is the 3-vector whose
`k`-th component is `emf_constant × sin(s × v_k × num_poles + offset_k)`
with `(v_0, v_1, v_2) = (0, 1/2, 1)` (the length-3 linspace over `[0,1]`)
and offsets `(0, −2π/3, +2π/3)`; the three phases use three *different*
angles — at `s = π/9` the middle phase does **not** equal the value the
shared-mechanical-angle formula `emf_constant × sin(s × num_poles − 2π/3)`
would give. -/
theorem back_emf_three_distinct_angles :
    (∀ s : ℝ, back_emf s = [emf_constant * Real.sin (s * 0 * num_poles + 0),
        emf_constant * Real.sin (s * (1 / 2) * num_poles + -(2 * Real.pi) / 3),
        emf_constant * Real.sin (s * 1 * num_poles + 2 * Real.pi / 3)]) ∧
    (back_emf (Real.pi / 9)).getD 1 0
      ≠ emf_constant * Real.sin (Real.pi / 9 * num_poles + -(2 * Real.pi) / 3) := by
  refine ⟨back_emf_components, ?_⟩
  rw [back_emf_components]
  simp only [List.getD_cons_succ, List.getD_cons_zero]
  have h1 : Real.pi / 9 * (1 / 2) * num_poles + -(2 * Real.pi) / 3 = 0 := by
    rw [num_poles]; ring
  have h2 : Real.pi / 9 * num_poles + -(2 * Real.pi) / 3 = 2 * Real.pi / 3 := by
    rw [num_poles]; ring
  rw [h1, h2, Real.sin_zero, mul_zero]
  have h3 : 0 < Real.sin (2 * Real.pi / 3) := by
    apply Real.sin_pos_of_pos_of_lt_pi
    · positivity
    · linarith [Real.pi_pos]
  exact (mul_pos (by norm_num [emf_constant]) h3).ne

/-- C5: claim. For every state vector `[speed, ia, ib, ic]`, `bldc_gen_model`
returns `[d(speed)/dt, d(iA)/dt, d(iB)/dt, d(iC)/dt]` with
`d(speed)/dt = (dot([ia,ib,ic], emf) − load_torque) / rotor_inertia` and
`d(current_k)/dt = (emf_k − resistance × current_k) / inductance`, where
`emf = back_emf speed`. -/
theorem bldc_gen_model_state_derivative (t s ia ib ic : ℝ) :
    bldc_gen_model t [s, ia, ib, ic]
      = [((ia * (back_emf s).getD 0 0 + ib * (back_emf s).getD 1 0
            + ic * (back_emf s).getD 2 0) - load_torque) / rotor_inertia,
         ((back_emf s).getD 0 0 - resistance * ia) / inductance,
         ((back_emf s).getD 1 0 - resistance * ib) / inductance,
         ((back_emf s).getD 2 0 - resistance * ic) / inductance] := by
  have hb := back_emf_components s
  simp only [bldc_gen_model, hb, List.getD_cons_zero, List.getD_cons_succ,
    List.drop_succ_cons, List.drop_zero, List.zipWith_cons_cons,
    List.zipWith_nil_right, List.sum_cons, List.sum_nil, List.cons.injEq,
    and_true]
  ring

/-- Length: `rectify_dc` produces one sample per common index of the three inputs. -/
theorem rectify_dc_length (ia ib ic : List ℝ) :
    (rectify_dc ia ib ic).length = min (min ia.length ib.length) ic.length := by
  simp [rectify_dc]

/-- Pointwise value of `rectify_dc`. -/
theorem rectify_dc_getD (ia ib ic : List ℝ) {k : ℕ}
    (hk : k < (rectify_dc ia ib ic).length) :
    (rectify_dc ia ib ic).getD k 0
      = (max (ia.getD k 0) 0 + max (ib.getD k 0) 0 + max (ic.getD k 0) 0) / 3 := by
  have hlen := rectify_dc_length ia ib ic
  have hka : k < ia.length := by omega
  have hkb : k < ib.length := by omega
  have hkc : k < ic.length := by omega
  have hz : k < (List.zipWith (fun a b => a + b)
      (List.zipWith (fun a b => a + b) (ia.map fun x => max x 0)
        (ib.map fun x => max x 0)) (ic.map fun x => max x 0)).length := by
    simp only [List.length_zipWith, List.length_map]
    omega
  rw [rectify_dc, getD_map_of_lt _ _ hz 0 0]
  congr 1
  rw [List.getD_eq_getElem _ _ hz, List.getElem_zipWith, List.getElem_zipWith,
    List.getElem_map, List.getElem_map, List.getElem_map,
    List.getD_eq_getElem _ _ hka, List.getD_eq_getElem _ _ hkb,
    List.getD_eq_getElem _ _ hkc]

/-- C8: claim. Every sample of `rectify_dc ia ib ic` is the mean of the three
phase-current samples after each is clamped to `≥ 0`, and is therefore
nonnegative. -/
theorem rectify_dc_mean_nonneg (ia ib ic : List ℝ) :
    (∀ x ∈ rectify_dc ia ib ic, 0 ≤ x) ∧
    ∀ k, k < (rectify_dc ia ib ic).length →
      (rectify_dc ia ib ic).getD k 0
        = (max (ia.getD k 0) 0 + max (ib.getD k 0) 0 + max (ic.getD k 0) 0) / 3 := by
  constructor
  · intro x hx
    obtain ⟨k, hk, rfl⟩ := List.mem_iff_getElem.mp hx
    rw [← List.getD_eq_getElem _ 0 hk, rectify_dc_getD ia ib ic hk]
    have h1 := le_max_right (ia.getD k 0) 0
    have h2 := le_max_right (ib.getD k 0) 0
    have h3 := le_max_right (ic.getD k 0) 0
    apply div_nonneg _ (by norm_num : (0 : ℝ) ≤ 3)
    linarith
  · exact fun k hk => rectify_dc_getD ia ib ic hk

/-- Witness for C8: singleton inputs `ia = [−3]`, `ib = [3]`, `ic = [0]`. -/
theorem rectify_dc_mean_nonneg_witness :
    0 < (rectify_dc [(-3 : ℝ)] [3] [0]).length ∧
      (rectify_dc [(-3 : ℝ)] [3] [0]).getD 0 0
        = (max (([(-3 : ℝ)] : List ℝ).getD 0 0) 0
            + max (([3] : List ℝ).getD 0 0) 0
            + max (([0] : List ℝ).getD 0 0) 0) / 3 :=
  ⟨by simp [rectify_dc],
    (rectify_dc_mean_nonneg [(-3 : ℝ)] [3] [0]).2 0 (by simp [rectify_dc])⟩

end Donther
